import Mathlib

/-!
Verification of the payment-session orchestrator described by the repository
specification against the type surface in
src/src/types/braintree/paypalCheckout.ts.  The source file contains only
interface declarations; the behavioural components (Session Validator,
Shipping Option Registry, Session State Machine) are modelled from the
specification text, while the declared option and payload types are embedded
from the source.
-/

namespace PayPal

/-- Modelled from the spec: the two structurally different flows of a
payment session (section 3, PaymentIntentSpec.flow); the source declares the
same closed set in BraintreePayPalCheckoutCreatePaymentOptions.flow. -/
inductive Flow
  | vault
  | checkout
deriving DecidableEq, Repr

/-- Modelled from the spec: the intent enumeration of a checkout payment
(section 3); the source declares the same closed set in
BraintreePayPalCheckoutCreatePaymentOptions.intent. -/
inductive Intent
  | authorize
  | order
  | capture
deriving DecidableEq, Repr

/-- Modelled from the spec: BraintreeCurrencyAmount is declared in
commonsTypes.ts, which is not part of the sources; the createPayment example
in paypalCheckout.ts shows its two fields value and currency. -/
structure BraintreeCurrencyAmount where
  value : String
  currency : String
deriving DecidableEq, Repr

/-- Shallow embedding of interface BraintreeShippingOption
(src/src/types/braintree/paypalCheckout.ts, lines 11-43). -/
structure BraintreeShippingOption where
  id : String
  label : String
  selected : Bool
  type : String
  amount : BraintreeCurrencyAmount
deriving DecidableEq, Repr

/-- Modelled from the spec: the PaymentIntentSpec of section 3, the caller
request to start a session.  Optional fields record whether the caller set
them; the source type BraintreePayPalCheckoutCreatePaymentOptions declares
the same fields as optional. -/
structure PaymentIntentSpec where
  flow : Flow
  intent : Option Intent
  amount : Option String
  currency : Option String
  vaultInitiatedCheckoutPaymentMethodToken : Option String
  billingAgreementDescription : Option String
  shippingOptions : Option (List BraintreeShippingOption)
deriving DecidableEq, Repr

/-- Modelled from the spec: the error taxonomy of section 7 together with
the state-violation kinds named in sections 4 and 5. -/
inductive OrchestratorError
  | MissingRequiredField
  | ConflictingFlowFields
  | ShippingOptionConflict
  | InvalidAmount
  | InvalidCurrency
  | GatewayError
  | PopupClosed
  | UnknownShippingOption
  | DuplicateApprovalEvent
  | AlreadyTokenized
  | SessionAlreadyInFlight
  | SessionTornDown
  | ApprovalNotYetReceived
deriving DecidableEq, Repr

/-- Modelled from the spec: every operation fails with a tagged error
carrying a stable code (section 6); the source doc comment for
startVaultInitiatedCheckout shows the code PAYPAL_POPUP_CLOSED for a
user-closed popup. -/
def errorCode : OrchestratorError → String
  | .MissingRequiredField => "MISSING_REQUIRED_FIELD"
  | .ConflictingFlowFields => "CONFLICTING_FLOW_FIELDS"
  | .ShippingOptionConflict => "SHIPPING_OPTION_CONFLICT"
  | .InvalidAmount => "INVALID_AMOUNT"
  | .InvalidCurrency => "INVALID_CURRENCY"
  | .GatewayError => "GATEWAY_ERROR"
  | .PopupClosed => "PAYPAL_POPUP_CLOSED"
  | .UnknownShippingOption => "UNKNOWN_SHIPPING_OPTION"
  | .DuplicateApprovalEvent => "DUPLICATE_APPROVAL_EVENT"
  | .AlreadyTokenized => "ALREADY_TOKENIZED"
  | .SessionAlreadyInFlight => "SESSION_ALREADY_IN_FLIGHT"
  | .SessionTornDown => "SESSION_TORN_DOWN"
  | .ApprovalNotYetReceived => "APPROVAL_NOT_YET_RECEIVED"

/-- Modelled from the spec: a checkout amount must parse as a positive
decimal (section 4.1).  A decimal literal is one or more digits optionally
followed by a dot and one or more digits; it is positive when some digit is
nonzero. -/
def isPositiveDecimal (s : String) : Bool :=
  let cs := s.toList
  let intPart := cs.takeWhile Char.isDigit
  let rest := cs.drop intPart.length
  let shapeOk :=
    decide (intPart ≠ []) &&
      (match rest with
       | [] => true
       | '.' :: frac => decide (frac ≠ []) && frac.all Char.isDigit
       | _ => false)
  shapeOk && cs.any (fun c => c.isDigit && decide (c ≠ '0'))

/-- Modelled from the spec: a checkout currency must parse as an ISO
currency code (section 4.1), three uppercase letters. -/
def isISOCurrencyCode (s : String) : Bool :=
  s.length == 3 && s.toList.all Char.isUpper

/-- Modelled from the spec: number of shipping options marked selected. -/
def selectedCount (opts : List BraintreeShippingOption) : Nat :=
  (opts.filter (fun o => o.selected)).length

/-- Modelled from the spec: the ids of a shipping option list must be
unique within a session (section 3). -/
def uniqueIds (opts : List BraintreeShippingOption) : Bool :=
  decide (opts.map (fun o => o.id)).Nodup

/-- Modelled from the spec: the Shipping Option Registry of section 4.2,
holding the ordered option list of a session and the selection reported by
the hosted flow. -/
structure ShippingOptionRegistry where
  options : List BraintreeShippingOption
  chosen : Option String
deriving DecidableEq, Repr

/-- Modelled from the spec: registry construction (section 4.2), rejecting
duplicate ids or more than one pre-selected option with
ShippingOptionConflict before any network call. -/
def registerShippingOptions (opts : List BraintreeShippingOption) :
    Except OrchestratorError ShippingOptionRegistry :=
  if uniqueIds opts && decide (selectedCount opts ≤ 1) then
    .ok { options := opts, chosen := none }
  else
    .error .ShippingOptionConflict

/-- Modelled from the spec: whether an optional shipping-option id refers to
an option present in the registry; an absent id is always acceptable. -/
def registryHasId (reg : ShippingOptionRegistry) (i : Option String) : Bool :=
  match i with
  | none => true
  | some s => reg.options.any (fun o => o.id == s)

/-- Modelled from the spec: select records which option the hosted flow
reported chosen (section 4.2) and fails when the id is not present. -/
def selectShippingOption (reg : ShippingOptionRegistry) (i : String) :
    Except OrchestratorError ShippingOptionRegistry :=
  if reg.options.any (fun o => o.id == i) then
    .ok { reg with chosen := some i }
  else
    .error .UnknownShippingOption

/-- Modelled from the spec: the registry states reachable through the
section 4.2 contract, namely successful registration followed by any number
of successful selections. -/
inductive RegistryReachable : ShippingOptionRegistry → Prop
  | registered (opts : List BraintreeShippingOption) (r : ShippingOptionRegistry) :
      registerShippingOptions opts = .ok r → RegistryReachable r
  | selected (r : ShippingOptionRegistry) (i : String) (r' : ShippingOptionRegistry) :
      RegistryReachable r → selectShippingOption r i = .ok r' → RegistryReachable r'

/-- Modelled from the spec: the output of the Session Validator
(section 4.1), with the intent defaulted and the shipping options already
registered. -/
structure ValidatedSpec where
  flow : Flow
  intent : Intent
  amount : Option String
  currency : Option String
  registry : ShippingOptionRegistry
  billingAgreementDescription : Option String
deriving DecidableEq, Repr

/-- Modelled from the spec: a spec mixes vault-only and checkout-only
fields when the vault flow carries amount, currency or the vault-initiated
token, or the checkout flow carries the vault-initiated token (sections 3
and 4.1). -/
def mixesFlowFields (spec : PaymentIntentSpec) : Bool :=
  match spec.flow with
  | .vault =>
      spec.amount.isSome || spec.currency.isSome ||
        spec.vaultInitiatedCheckoutPaymentMethodToken.isSome
  | .checkout => spec.vaultInitiatedCheckoutPaymentMethodToken.isSome

/-- Modelled from the spec: the Session Validator of section 4.1.  Vault
specs must not carry amount, currency or the vault-initiated token; checkout
specs require a positive decimal amount and an ISO currency code, default
the intent to authorize, and must not carry the vault-initiated token;
shipping options must register successfully.  Pure: no collaborator call. -/
def validate (spec : PaymentIntentSpec) :
    Except OrchestratorError ValidatedSpec :=
  match spec.flow with
  | .vault =>
      if spec.amount.isSome || spec.currency.isSome ||
          spec.vaultInitiatedCheckoutPaymentMethodToken.isSome then
        .error .ConflictingFlowFields
      else do
        let reg ← registerShippingOptions (spec.shippingOptions.getD [])
        .ok { flow := .vault, intent := spec.intent.getD .authorize,
              amount := none, currency := none, registry := reg,
              billingAgreementDescription := spec.billingAgreementDescription }
  | .checkout =>
      if spec.vaultInitiatedCheckoutPaymentMethodToken.isSome then
        .error .ConflictingFlowFields
      else
        match spec.amount, spec.currency with
        | none, _ => .error .MissingRequiredField
        | some _, none => .error .MissingRequiredField
        | some a, some c =>
          if !(isPositiveDecimal a) then .error .InvalidAmount
          else if !(isISOCurrencyCode c) then .error .InvalidCurrency
          else do
            let reg ← registerShippingOptions (spec.shippingOptions.getD [])
            .ok { flow := .checkout, intent := spec.intent.getD .authorize,
                  amount := some a, currency := some c, registry := reg,
                  billingAgreementDescription := spec.billingAgreementDescription }

/-- Modelled from the spec: the ApprovalPayload delivered by the Hosted-Flow
Bridge on buyer approval (section 3). -/
structure ApprovalPayload where
  payerId : String
  orderId : String
  shippingOptionId : Option String
  vault : Option Bool
deriving DecidableEq, Repr

/-- Modelled from the spec: the Credential produced by tokenization
(section 3), a single-use nonce plus payer and shipping metadata. -/
structure Credential where
  nonce : String
  payerId : String
  shippingOptionId : Option String
deriving DecidableEq, Repr

/-- Modelled from the spec: the Gateway Bridge interface of section 4.4,
openSession and exchange, kept abstract as an external collaborator. -/
structure Gateway where
  openSession : ValidatedSpec → Except OrchestratorError String
  exchange : String → ApprovalPayload → Except OrchestratorError Credential

/-- Modelled from the spec: one observable call to a collaborator bridge,
recorded so fail-fast properties can state that no call was made. -/
inductive BridgeCall
  | openSession (spec : ValidatedSpec)
  | subscribe (sessionId : String)
  | exchange (sessionId : String) (payload : ApprovalPayload)
  | unsubscribe (sessionId : String)
deriving DecidableEq, Repr

/-- Modelled from the spec: the session lifecycle states of section 4.3. -/
inductive SessionState
  | Uninitialized
  | SessionCreated
  | AwaitingApproval
  | Approved
  | Cancelled
  | Failed
  | Tokenized
  | TornDown
deriving DecidableEq, Repr

/-- Modelled from the spec: the Session State Machine state (section 4.3):
lifecycle state, session id, registry, the approval payload received, the
credential produced, and whether the single terminal hosted-flow event has
already been processed. -/
structure Orchestrator where
  state : SessionState
  sessionId : Option String
  registry : ShippingOptionRegistry
  approval : Option ApprovalPayload
  credential : Option Credential
  terminalEventSeen : Bool
deriving DecidableEq, Repr

/-- Modelled from the spec: a fresh orchestrator before createPayment. -/
def initialOrchestrator : Orchestrator :=
  { state := .Uninitialized, sessionId := none,
    registry := { options := [], chosen := none },
    approval := none, credential := none, terminalEventSeen := false }

/-- Modelled from the spec: createPayment (sections 4.3 and 6): validation
first with no collaborator call on failure, then openSession on the Gateway
Bridge; on success the machine passes through SessionCreated to
AwaitingApproval and subscribes for the single terminal event. -/
def createPayment (gw : Gateway) (o : Orchestrator) (spec : PaymentIntentSpec) :
    Orchestrator × Except OrchestratorError String × List BridgeCall :=
  if o.state = .TornDown then (o, .error .SessionTornDown, [])
  else if o.state ≠ .Uninitialized then (o, .error .SessionAlreadyInFlight, [])
  else
    match validate spec with
    | .error e => (o, .error e, [])
    | .ok v =>
      match gw.openSession v with
      | .error e => ({ o with state := .Failed }, .error e, [.openSession v])
      | .ok sid =>
        ({ o with
            state := .AwaitingApproval
            sessionId := some sid
            registry := v.registry },
         .ok sid, [.openSession v, .subscribe sid])

/-- Modelled from the spec: the terminal events the Hosted-Flow Bridge can
deliver for a session (sections 2 and 4.4). -/
inductive HostedFlowEvent
  | approved (payload : ApprovalPayload)
  | cancelled
  | errored
deriving DecidableEq, Repr

/-- Modelled from the spec: how the machine disposed of a delivered event:
dropped after teardown, ignored as a duplicate protocol violation, accepted
as the approval, or surfaced to the caller as a tagged error. -/
inductive EventOutcome
  | dropped
  | duplicateIgnored
  | accepted
  | surfaced (e : OrchestratorError)
deriving DecidableEq, Repr

/-- Modelled from the spec: delivery of a hosted-flow event (sections 4.3
and 5).  After teardown events are dropped; after the first terminal event
any further event is a DuplicateApprovalEvent, logged and ignored with no
transition; while AwaitingApproval the event transitions to Approved,
Cancelled with PopupClosed, or Failed. -/
def deliverEvent (o : Orchestrator) (ev : HostedFlowEvent) :
    Orchestrator × EventOutcome :=
  if o.state = .TornDown then (o, .dropped)
  else if o.terminalEventSeen then (o, .duplicateIgnored)
  else if o.state = .AwaitingApproval then
    match ev with
    | .approved p =>
      if registryHasId o.registry p.shippingOptionId then
        ({ o with
            state := .Approved
            approval := some p
            terminalEventSeen := true
            registry := { o.registry with chosen := p.shippingOptionId } },
         .accepted)
      else
        ({ o with state := .Failed, terminalEventSeen := true },
         .surfaced .UnknownShippingOption)
    | .cancelled =>
        ({ o with state := .Cancelled, terminalEventSeen := true },
         .surfaced .PopupClosed)
    | .errored =>
        ({ o with state := .Failed, terminalEventSeen := true },
         .surfaced .GatewayError)
  else (o, .dropped)

/-- Modelled from the spec: tokenizePayment (section 4.3): only an Approved
session exchanges its payload for a Credential; a Tokenized session fails
with AlreadyTokenized and no second exchange; a TornDown session fails with
SessionTornDown; a Cancelled session surfaces the PopupClosed-derived
failure; tokenizing before any bridge event is ApprovalNotYetReceived. -/
def tokenizePayment (gw : Gateway) (o : Orchestrator) (p : ApprovalPayload) :
    Orchestrator × Except OrchestratorError Credential × List BridgeCall :=
  match o.state with
  | .TornDown => (o, .error .SessionTornDown, [])
  | .Tokenized => (o, .error .AlreadyTokenized, [])
  | .Cancelled => (o, .error .PopupClosed, [])
  | .Failed => (o, .error .GatewayError, [])
  | .Approved =>
    if !(registryHasId o.registry p.shippingOptionId) then
      (o, .error .UnknownShippingOption, [])
    else
      match o.sessionId with
      | none => (o, .error .GatewayError, [])
      | some sid =>
        match gw.exchange sid p with
        | .error e => ({ o with state := .Failed }, .error e, [.exchange sid p])
        | .ok cred =>
          ({ o with state := .Tokenized, credential := some cred },
           .ok cred, [.exchange sid p])
  | _ => (o, .error .ApprovalNotYetReceived, [])

/-- Modelled from the spec: teardown (sections 4.3 and 5): from any state
the session becomes TornDown and the hosted-flow subscription is released
synchronously. -/
def teardown (o : Orchestrator) : Orchestrator × List BridgeCall :=
  ({ o with state := .TornDown },
   match o.sessionId with
   | some sid => [.unsubscribe sid]
   | none => [])

/-- Shallow embedding of interface BraintreePayPalCheckoutTokenizationOptions
(src/src/types/braintree/paypalCheckout.ts, lines 63-71), as the record of
fields a caller supplied. -/
structure BraintreePayPalCheckoutTokenizationOptions where
  payerID : Option String
  orderID : Option String
  paymentID : Option String
  paymentToken : Option String
  billingToken : Option String
  shippingOptionsId : Option String
  vault : Option Bool
deriving DecidableEq, Repr

/-- Shallow embedding of the field requirements of that interface: payerID
and orderID are declared without a question mark, the other five fields with
one; a record of supplied fields typechecks exactly when the two required
fields are present. -/
def wellTypedTokenizationOptions
    (t : BraintreePayPalCheckoutTokenizationOptions) : Bool :=
  t.payerID.isSome && t.orderID.isSome

/-- Shallow embedding of the declared options parameter type of
startVaultInitiatedCheckout (src/src/types/braintree/paypalCheckout.ts,
lines 293-295): the declaration lists the single required field
optOutOfModalBackdrop and no payment fields at all. -/
structure StartVaultInitiatedCheckoutOptions where
  optOutOfModalBackdrop : Bool
deriving DecidableEq, Repr

/-- Modelled from the spec: the section 8 happy path, createPayment from a
fresh orchestrator, delivery of the buyer approval, then tokenizePayment
with the approved payload; returns the final orchestrator and the
tokenization result. -/
def checkoutHappyPath (gw : Gateway) (spec : PaymentIntentSpec)
    (p : ApprovalPayload) : Orchestrator × Except OrchestratorError Credential :=
  let o₁ := (createPayment gw initialOrchestrator spec).1
  let o₂ := (deliverEvent o₁ (.approved p)).1
  let r := tokenizePayment gw o₂ p
  (r.1, r.2.1)

/-- Concrete checkout spec used to instantiate proved properties. -/
def specW : PaymentIntentSpec :=
  { flow := .checkout, intent := none, amount := some "10.00",
    currency := some "USD", vaultInitiatedCheckoutPaymentMethodToken := none,
    billingAgreementDescription := none, shippingOptions := none }

/-- The validator output on the concrete checkout spec. -/
def vW : ValidatedSpec :=
  { flow := .checkout, intent := .authorize, amount := some "10.00",
    currency := some "USD", registry := { options := [], chosen := none },
    billingAgreementDescription := none }

/-- Concrete credential returned by the concrete gateway. -/
def credW : Credential :=
  { nonce := "nonce-1", payerId := "payer-1", shippingOptionId := none }

/-- Concrete gateway whose calls both succeed. -/
def gwW : Gateway :=
  { openSession := fun _ => .ok "sess-1", exchange := fun _ _ => .ok credW }

/-- Concrete approval payload delivered by the hosted flow. -/
def payloadW : ApprovalPayload :=
  { payerId := "payer-1", orderId := "order-1", shippingOptionId := none,
    vault := none }

/-- Concrete empty registry. -/
def emptyRegistry : ShippingOptionRegistry :=
  { options := [], chosen := none }

/-- Concrete shipping option marked selected, id a. -/
def optA : BraintreeShippingOption :=
  { id := "a", label := "Store Location Five", selected := true,
    type := "PICKUP", amount := { value := "1.00", currency := "USD" } }

/-- Concrete shipping option marked selected, id b. -/
def optB : BraintreeShippingOption :=
  { id := "b", label := "Fast Shipping", selected := true,
    type := "SHIPPING", amount := { value := "1.00", currency := "USD" } }

/-- Concrete orchestrator sitting in AwaitingApproval. -/
def awaitW : Orchestrator :=
  { state := .AwaitingApproval, sessionId := some "sess-1",
    registry := { options := [], chosen := none }, approval := none,
    credential := none, terminalEventSeen := false }

/-- Concrete orchestrator already Tokenized with its credential. -/
def tokW : Orchestrator :=
  { state := .Tokenized, sessionId := some "sess-1",
    registry := { options := [], chosen := none }, approval := some payloadW,
    credential := some credW, terminalEventSeen := true }

/-- Concrete tokenization options supplying only the required fields. -/
def tokOptsReqW : BraintreePayPalCheckoutTokenizationOptions :=
  { payerID := some "payer-1", orderID := some "order-1", paymentID := none,
    paymentToken := none, billingToken := none, shippingOptionsId := none,
    vault := none }

/-- Concrete tokenization options supplying every field. -/
def tokOptsAllW : BraintreePayPalCheckoutTokenizationOptions :=
  { payerID := some "payer-1", orderID := some "order-1",
    paymentID := some "pay-1", paymentToken := some "ptok-1",
    billingToken := some "btok-1", shippingOptionsId := some "a",
    vault := some false }

/-- Replacing the chosen selection does not change which ids the registry
holds. -/
theorem registryHasId_chosen (reg : ShippingOptionRegistry)
    (c : Option String) (i : Option String) :
    registryHasId { reg with chosen := c } i = registryHasId reg i := by
  cases i <;> rfl

/-- Claim C1: for every valid checkout-flow PaymentIntentSpec, createPayment
followed by delivery of the buyer approval and tokenizePayment with the
matching ApprovalPayload produces exactly one Credential, and the session
ends in the terminal state Tokenized. -/
theorem checkout_create_then_tokenize
    (gw : Gateway) (spec : PaymentIntentSpec) (v : ValidatedSpec)
    (p : ApprovalPayload) (sid : String) (cred : Credential)
    (hflow : spec.flow = .checkout)
    (hvalid : validate spec = .ok v)
    (hopen : gw.openSession v = .ok sid)
    (hship : registryHasId v.registry p.shippingOptionId = true)
    (hexch : gw.exchange sid p = .ok cred) :
    (createPayment gw initialOrchestrator spec).1.state = .AwaitingApproval ∧
    (deliverEvent (createPayment gw initialOrchestrator spec).1
        (.approved p)).1.credential = none ∧
    (checkoutHappyPath gw spec p).2 = .ok cred ∧
    (checkoutHappyPath gw spec p).1.state = .Tokenized ∧
    (checkoutHappyPath gw spec p).1.credential = some cred := by
  have h1 : createPayment gw initialOrchestrator spec =
      ({ initialOrchestrator with
          state := .AwaitingApproval
          sessionId := some sid
          registry := v.registry },
       .ok sid, [.openSession v, .subscribe sid]) := by
    simp [createPayment, initialOrchestrator, hvalid, hopen]
  have h2 : deliverEvent (createPayment gw initialOrchestrator spec).1
      (.approved p) =
      ({ initialOrchestrator with
          state := .Approved
          sessionId := some sid
          approval := some p
          terminalEventSeen := true
          registry := { v.registry with chosen := p.shippingOptionId } },
       .accepted) := by
    rw [h1]
    simp [deliverEvent, initialOrchestrator, hship]
  have h3 : checkoutHappyPath gw spec p =
      ({ initialOrchestrator with
          state := .Tokenized
          sessionId := some sid
          approval := some p
          terminalEventSeen := true
          credential := some cred
          registry := { v.registry with chosen := p.shippingOptionId } },
       .ok cred) := by
    rw [checkoutHappyPath]
    rw [h2]
    simp [tokenizePayment, initialOrchestrator, registryHasId_chosen, hship,
      hexch]
  refine ⟨?_, ?_, ?_, ?_, ?_⟩
  · rw [h1]
  · rw [h2]
    rfl
  · rw [h3]
  · rw [h3]
  · rw [h3]

/-- Claim C1 witness at a concrete gateway, spec and payload. -/
theorem checkout_create_then_tokenize_witness :
    (createPayment gwW initialOrchestrator specW).1.state =
      .AwaitingApproval ∧
    (deliverEvent (createPayment gwW initialOrchestrator specW).1
        (.approved payloadW)).1.credential = none ∧
    (checkoutHappyPath gwW specW payloadW).2 = .ok credW ∧
    (checkoutHappyPath gwW specW payloadW).1.state = .Tokenized ∧
    (checkoutHappyPath gwW specW payloadW).1.credential = some credW :=
  checkout_create_then_tokenize gwW specW vW payloadW "sess-1" credW
    rfl rfl rfl rfl rfl

/-- Claim C2: a spec mixing vault-only and checkout-only fields makes
createPayment fail with ConflictingFlowFields with no Gateway Bridge call,
and every validation failure is reported before any collaborator call. -/
theorem conflicting_flow_fields_fail_fast (gw : Gateway)
    (spec : PaymentIntentSpec) (h : mixesFlowFields spec = true) :
    createPayment gw initialOrchestrator spec =
      (initialOrchestrator, .error .ConflictingFlowFields, []) ∧
    (∀ (spec' : PaymentIntentSpec) (e : OrchestratorError),
      validate spec' = .error e →
      createPayment gw initialOrchestrator spec' =
        (initialOrchestrator, .error e, [])) := by
  constructor
  · have hv : validate spec = .error .ConflictingFlowFields := by
      cases hf : spec.flow
      · simp only [mixesFlowFields, hf] at h
        simp [validate, hf, h]
      · simp only [mixesFlowFields, hf] at h
        simp [validate, hf, h]
    simp [createPayment, initialOrchestrator, hv]
  · intro spec' e he
    simp [createPayment, initialOrchestrator, he]

/-- Claim C2 witness: a vault spec carrying an amount fails with
ConflictingFlowFields and makes no bridge call. -/
theorem conflicting_flow_fields_fail_fast_witness :
    createPayment gwW initialOrchestrator
      { flow := .vault, intent := none, amount := some "10.00",
        currency := none, vaultInitiatedCheckoutPaymentMethodToken := none,
        billingAgreementDescription := none, shippingOptions := none } =
      (initialOrchestrator, .error .ConflictingFlowFields, []) ∧
    (∀ (spec' : PaymentIntentSpec) (e : OrchestratorError),
      validate spec' = .error e →
      createPayment gwW initialOrchestrator spec' =
        (initialOrchestrator, .error e, [])) :=
  conflicting_flow_fields_fail_fast gwW
    { flow := .vault, intent := none, amount := some "10.00",
      currency := none, vaultInitiatedCheckoutPaymentMethodToken := none,
      billingAgreementDescription := none, shippingOptions := none } rfl

/-- Claim C3: registry construction succeeds exactly when the ids are
unique and at most one option is selected, a list with two selected options
is rejected with ShippingOptionConflict, and every reachable registry state
keeps at most one option selected. -/
theorem shipping_option_registry_invariant
    (opts : List BraintreeShippingOption) (r : ShippingOptionRegistry)
    (hreach : RegistryReachable r) :
    ((∃ r0, registerShippingOptions opts = .ok r0) ↔
      (uniqueIds opts = true ∧ selectedCount opts ≤ 1)) ∧
    (2 ≤ selectedCount opts →
      registerShippingOptions opts = .error .ShippingOptionConflict) ∧
    selectedCount r.options ≤ 1 ∧ uniqueIds r.options = true := by
  refine ⟨?_, ?_, ?_⟩
  · constructor
    · rintro ⟨r0, hr0⟩
      rw [registerShippingOptions] at hr0
      cases hu : uniqueIds opts <;> cases hs : decide (selectedCount opts ≤ 1) <;>
        rw [hu, hs] at hr0 <;> simp_all
    · rintro ⟨hu, hs⟩
      exact ⟨{ options := opts, chosen := none },
        by simp [registerShippingOptions, hu, hs]⟩
  · intro h2
    have hns : ¬ (selectedCount opts ≤ 1) := by omega
    simp [registerShippingOptions, hns]
  · induction hreach with
    | registered opts0 r0 hr0 =>
      rw [registerShippingOptions] at hr0
      cases hu : uniqueIds opts0 <;> cases hs : decide (selectedCount opts0 ≤ 1) <;>
          rw [hu, hs] at hr0 <;> simp at hr0
      subst hr0
      exact ⟨of_decide_eq_true hs, hu⟩
    | selected r0 i r1 _ hsel ih =>
      rw [selectShippingOption] at hsel
      cases hm : r0.options.any (fun o => o.id == i) <;> rw [hm] at hsel <;>
          simp at hsel
      subst hsel
      exact ih

/-- Claim C3 witness: the spec example with two selected options is
rejected, and the registry built from the empty list is reachable and
satisfies the invariant. -/
theorem shipping_option_registry_invariant_witness :
    ((∃ r0, registerShippingOptions [optA, optB] = .ok r0) ↔
      (uniqueIds [optA, optB] = true ∧ selectedCount [optA, optB] ≤ 1)) ∧
    (2 ≤ selectedCount [optA, optB] →
      registerShippingOptions [optA, optB] = .error .ShippingOptionConflict) ∧
    selectedCount emptyRegistry.options ≤ 1 ∧
    uniqueIds emptyRegistry.options = true :=
  shipping_option_registry_invariant [optA, optB] emptyRegistry
    (RegistryReachable.registered [] emptyRegistry rfl)

/-- Claim C4: a second tokenizePayment on a session already Tokenized fails
with AlreadyTokenized, performs no exchange with the Gateway Bridge, and
leaves the stored Credential unchanged. -/
theorem tokenize_after_tokenized_fails (gw : Gateway) (o : Orchestrator)
    (p : ApprovalPayload) (h : o.state = .Tokenized) :
    tokenizePayment gw o p = (o, .error .AlreadyTokenized, []) ∧
    (tokenizePayment gw o p).1.credential = o.credential := by
  have ht : tokenizePayment gw o p = (o, .error .AlreadyTokenized, []) := by
    simp [tokenizePayment, h]
  exact ⟨ht, by rw [ht]⟩

/-- Claim C4 witness at a concrete Tokenized session. -/
theorem tokenize_after_tokenized_fails_witness :
    tokenizePayment gwW tokW payloadW = (tokW, .error .AlreadyTokenized, []) ∧
    (tokenizePayment gwW tokW payloadW).1.credential = tokW.credential :=
  tokenize_after_tokenized_fails gwW tokW payloadW rfl

/-- Claim C5: the options type the source declares for
startVaultInitiatedCheckout carries only the optOutOfModalBackdrop flag, so
it cannot carry the token, amount and currency its own doc comment calls
required: two values agreeing on that flag are equal. -/
theorem startVaultInitiatedCheckout_options_only_backdrop
    (o₁ o₂ : StartVaultInitiatedCheckoutOptions)
    (h : o₁.optOutOfModalBackdrop = o₂.optOutOfModalBackdrop) : o₁ = o₂ := by
  cases o₁
  cases o₂
  cases h
  rfl

/-- Claim C5 witness at concrete option records. -/
theorem startVaultInitiatedCheckout_options_only_backdrop_witness :
    (⟨true⟩ : StartVaultInitiatedCheckoutOptions) = ⟨true⟩ :=
  startVaultInitiatedCheckout_options_only_backdrop ⟨true⟩ ⟨true⟩ rfl

/-- Claim C6: a checkout spec the validator accepts carries a present
amount parsing as a positive decimal and a present ISO currency code, and
when the intent is absent the validated spec has intent authorize. -/
theorem checkout_validation_requirements (spec : PaymentIntentSpec)
    (v : ValidatedSpec) (hflow : spec.flow = .checkout)
    (hok : validate spec = .ok v) :
    (∃ a, spec.amount = some a ∧ isPositiveDecimal a = true) ∧
    (∃ c, spec.currency = some c ∧ isISOCurrencyCode c = true) ∧
    (spec.intent = none → v.intent = .authorize) := by
  simp only [validate, hflow] at hok
  cases ht : spec.vaultInitiatedCheckoutPaymentMethodToken.isSome <;>
    simp only [ht] at hok
  case true => simp at hok
  case false =>
    cases ha : spec.amount <;> simp only [ha] at hok
    case none => simp at hok
    case some a =>
      cases hc : spec.currency <;> simp only [hc] at hok
      case none => simp at hok
      case some c =>
        cases hpa : isPositiveDecimal a <;> simp only [hpa] at hok
        case false => simp at hok
        case true =>
          cases hpc : isISOCurrencyCode c <;> simp only [hpc] at hok
          case false => simp at hok
          case true =>
            cases hr : registerShippingOptions (spec.shippingOptions.getD []) <;>
              simp only [hr] at hok
            case error e => simp [Bind.bind, Except.bind] at hok
            case ok reg =>
              have hv : v =
                  { flow := .checkout
                    intent := spec.intent.getD .authorize
                    amount := some a
                    currency := some c
                    registry := reg
                    billingAgreementDescription :=
                      spec.billingAgreementDescription } := by
                simp [Bind.bind, Except.bind] at hok
                exact hok.symm
              refine ⟨⟨a, rfl, hpa⟩, ⟨c, rfl, hpc⟩, ?_⟩
              intro hi
              rw [hv]
              simp [hi]

/-- Claim C6 witness at the concrete checkout spec. -/
theorem checkout_validation_requirements_witness :
    (∃ a, specW.amount = some a ∧ isPositiveDecimal a = true) ∧
    (∃ c, specW.currency = some c ∧ isISOCurrencyCode c = true) ∧
    (specW.intent = none → vW.intent = .authorize) :=
  checkout_validation_requirements specW vW rfl rfl

/-- Claim C7: while AwaitingApproval, the bridge reporting that the buyer
closed the hosted UI moves the session to Cancelled and surfaces the
distinguishable kind PopupClosed with stable code PAYPAL_POPUP_CLOSED,
which is not the GatewayError kind. -/
theorem cancel_surfaces_popup_closed (o : Orchestrator)
    (h1 : o.state = .AwaitingApproval) (h2 : o.terminalEventSeen = false) :
    (deliverEvent o .cancelled).1.state = .Cancelled ∧
    (deliverEvent o .cancelled).2 = .surfaced .PopupClosed ∧
    errorCode .PopupClosed = "PAYPAL_POPUP_CLOSED" ∧
    OrchestratorError.PopupClosed ≠ OrchestratorError.GatewayError := by
  have hde : deliverEvent o .cancelled =
      ({ o with state := .Cancelled, terminalEventSeen := true },
       .surfaced .PopupClosed) := by
    simp [deliverEvent, h1, h2]
  exact ⟨by rw [hde], by rw [hde], rfl, by decide⟩

/-- Claim C7 witness at a concrete AwaitingApproval session. -/
theorem cancel_surfaces_popup_closed_witness :
    (deliverEvent awaitW .cancelled).1.state = .Cancelled ∧
    (deliverEvent awaitW .cancelled).2 = .surfaced .PopupClosed ∧
    errorCode .PopupClosed = "PAYPAL_POPUP_CLOSED" ∧
    OrchestratorError.PopupClosed ≠ OrchestratorError.GatewayError :=
  cancel_surfaces_popup_closed awaitW rfl rfl

/-- A session that already processed its terminal event and is not torn
down ignores every further event as a duplicate. -/
theorem deliverEvent_after_seen (o : Orchestrator) (ev : HostedFlowEvent)
    (h1 : o.terminalEventSeen = true) (h2 : o.state ≠ .TornDown) :
    deliverEvent o ev = (o, .duplicateIgnored) := by
  rw [deliverEvent.eq_def, if_neg h2, if_pos h1]

/-- Claim C8: after the first terminal hosted-flow event is processed, any
further terminal event is ignored as a duplicate and the session never
leaves the state the first event produced. -/
theorem second_terminal_event_ignored (o : Orchestrator)
    (ev ev' : HostedFlowEvent)
    (h1 : o.state = .AwaitingApproval) (h2 : o.terminalEventSeen = false) :
    (deliverEvent (deliverEvent o ev).1 ev').1 = (deliverEvent o ev).1 ∧
    (deliverEvent (deliverEvent o ev).1 ev').2 = .duplicateIgnored := by
  have key : (deliverEvent o ev).1.terminalEventSeen = true ∧
      (deliverEvent o ev).1.state ≠ .TornDown := by
    cases ev with
    | approved p =>
      cases hr : registryHasId o.registry p.shippingOptionId <;>
        simp [deliverEvent, h1, h2, hr]
    | cancelled => simp [deliverEvent, h1, h2]
    | errored => simp [deliverEvent, h1, h2]
  rw [deliverEvent_after_seen (deliverEvent o ev).1 ev' key.1 key.2]
  exact ⟨rfl, rfl⟩

/-- Claim C8 witness: an approval after the buyer already cancelled is
ignored as a duplicate. -/
theorem second_terminal_event_ignored_witness :
    (deliverEvent (deliverEvent awaitW .cancelled).1
        (.approved payloadW)).1 = (deliverEvent awaitW .cancelled).1 ∧
    (deliverEvent (deliverEvent awaitW .cancelled).1
        (.approved payloadW)).2 = .duplicateIgnored :=
  second_terminal_event_ignored awaitW .cancelled (.approved payloadW) rfl rfl

/-- Claim C9: from any state, teardown leaves the session in the terminal
state TornDown: a late hosted-flow event is dropped with no state change
and no credential, and createPayment as well as tokenizePayment on the
torn-down session fail with SessionTornDown. -/
theorem teardown_is_terminal (o : Orchestrator) (ev : HostedFlowEvent)
    (gw : Gateway) (spec : PaymentIntentSpec) (p : ApprovalPayload) :
    (teardown o).1.state = .TornDown ∧
    deliverEvent (teardown o).1 ev = ((teardown o).1, .dropped) ∧
    (deliverEvent (teardown o).1 ev).1.credential = o.credential ∧
    createPayment gw (teardown o).1 spec =
      ((teardown o).1, .error .SessionTornDown, []) ∧
    tokenizePayment gw (teardown o).1 p =
      ((teardown o).1, .error .SessionTornDown, []) := by
  refine ⟨rfl, ?_, ?_, ?_, ?_⟩ <;>
    simp [teardown, deliverEvent, createPayment, tokenizePayment]

/-- Claim C10: the tokenization options require payerID and orderID and
nothing else: a well-typed record has both present, and replacing the five
optional fields with anything keeps the record well-typed. -/
theorem tokenization_required_fields
    (t t' : BraintreePayPalCheckoutTokenizationOptions)
    (h : wellTypedTokenizationOptions t = true)
    (hp : t.payerID = t'.payerID) (ho : t.orderID = t'.orderID) :
    t.payerID ≠ none ∧ t.orderID ≠ none ∧
    wellTypedTokenizationOptions t' = true := by
  rw [wellTypedTokenizationOptions, Bool.and_eq_true] at h
  refine ⟨?_, ?_, ?_⟩
  · rw [← Option.isSome_iff_ne_none]
    exact h.1
  · rw [← Option.isSome_iff_ne_none]
    exact h.2
  · rw [wellTypedTokenizationOptions, ← hp, ← ho, Bool.and_eq_true]
    exact h

/-- Claim C10 witness: the record with only the required fields is
well-typed, hence so is the record with every optional field supplied. -/
theorem tokenization_required_fields_witness :
    tokOptsReqW.payerID ≠ none ∧ tokOptsReqW.orderID ≠ none ∧
    wellTypedTokenizationOptions tokOptsAllW = true :=
  tokenization_required_fields tokOptsReqW tokOptsAllW rfl rfl rfl

end PayPal
